import Mathlib

/-!
# Verification of samplellama's translation/session subsystem

Shallow embedding of the core of `samplellama`, a bridge that accepts
Ollama-dialect HTTP requests, translates them into MCP `CreateMessage`
sampling calls, and translates the results back:

* the schema translator (`chatToCreateMessage`, `generateToCreateMessage`,
  `mcpStopReason`, `extractTextContent` from `translate.go`),
* the endpoint registry (`sessionHolder` with `set` / `remove` / `get`
  from `main.go`),
* the request handlers' decision structure and two-frame response
  emission (`handleChat` / `handleGenerate` from `main.go`).

Conventions of the embedding:

* Go strings are Lean `String`s; Go `len` on a string counts UTF-8 bytes,
  which is `String.utf8ByteSize`.
* Go struct fields that stay at their zero value and are serialised with
  `omitempty` (system prompt, model preferences, temperature, done_reason)
  are modelled as `Option`, `none` meaning "never assigned / omitted".
* Temperature values are only ever copied verbatim (no arithmetic is
  performed on them), so `float64` is modelled by `Rat`.
* Timestamps (`created_at`, durations) are wall-clock values outside the
  embedding and are omitted from the response records.
* The Ollama HTTP plumbing is abstracted: a handler model receives the
  already-attempted JSON decode as `Except String req` and the registry's
  current session as `Option Sampler`, and returns the response outcome
  paired with a `Bool` recording whether the outbound `CreateMessage`
  call was made.
-/

namespace Samplellama

/-- Inbound Ollama chat message: a role tag and textual content
(`OllamaMessage` in `types.go`). -/
structure OllamaMessage where
  role : String
  content : String
deriving DecidableEq, Repr

/-- Per-request options shared by chat and generate requests
(`Options` in `types.go`): `num_predict` and an optional temperature. -/
structure Options where
  numPredict : Int
  temperature : Option Rat
deriving DecidableEq, Repr

/-- Ollama `/api/chat` request body (`ChatRequest` in `types.go`). -/
structure ChatRequest where
  model : String
  messages : List OllamaMessage
  stream : Option Bool
  options : Option Options
deriving DecidableEq, Repr

/-- Ollama `/api/generate` request body (`GenerateRequest` in `types.go`). -/
structure GenerateRequest where
  model : String
  prompt : String
  system : String
  stream : Option Bool
  options : Option Options
deriving DecidableEq, Repr

/-- An MCP content value (`mcp.Content` tagged variants). A possibly-nil Go
interface value is modelled as `Option MCPContent`. -/
inductive MCPContent
  | textContent (text : String)
  | imageContent (data mimeType : String)
  | audioContent (data mimeType : String)
deriving DecidableEq, Repr

/-- An outbound sampling message (`mcp.SamplingMessage`). -/
structure SamplingMessage where
  role : String
  content : MCPContent
deriving DecidableEq, Repr

/-- A model-name hint (`mcp.ModelHint`). -/
structure ModelHint where
  name : String
deriving DecidableEq, Repr

/-- Model preferences carrying the hint list (`mcp.ModelPreferences`). -/
structure ModelPreferences where
  hints : List ModelHint
deriving DecidableEq, Repr

/-- Outbound MCP request (`mcp.CreateMessageParams`): message list,
max-token count, and the optional system prompt / model hints /
temperature (each `none` when the translator never assigns it). -/
structure CreateMessageParams where
  messages : List SamplingMessage
  maxTokens : Int
  systemPrompt : Option String
  modelPreferences : Option ModelPreferences
  temperature : Option Rat
deriving DecidableEq, Repr

/-- The message loop of `chatToCreateMessage` (`translate.go`): one pass
over the inbound messages, collecting system-role contents (in order) and
translating every other message, role `"assistant"` staying `"assistant"`
and any other role becoming `"user"`. -/
def partitionChatMessages : List OllamaMessage → List String × List SamplingMessage
  | [] => ([], [])
  | msg :: rest =>
    let (sys, msgs) := partitionChatMessages rest
    if msg.role = "system" then
      (msg.content :: sys, msgs)
    else
      let role := if msg.role = "assistant" then "assistant" else "user"
      (sys, { role := role, content := MCPContent.textContent msg.content } :: msgs)

/-- `chatToCreateMessage` (`translate.go`): translate an Ollama chat request
into MCP `CreateMessageParams`. -/
def chatToCreateMessage (req : ChatRequest) (defaultMaxTokens : Int) : CreateMessageParams :=
  let (systemParts, messages) := partitionChatMessages req.messages
  let maxTokens :=
    match req.options with
    | some o => if o.numPredict > 0 then o.numPredict else defaultMaxTokens
    | none => defaultMaxTokens
  { messages := messages
    maxTokens := maxTokens
    systemPrompt :=
      if systemParts.length > 0 then some (String.intercalate "\n" systemParts) else none
    modelPreferences :=
      if req.model ≠ "" then some { hints := [{ name := req.model }] } else none
    temperature :=
      match req.options with
      | some o => o.temperature
      | none => none }

/-- `generateToCreateMessage` (`translate.go`): translate an Ollama generate
request into MCP `CreateMessageParams`; the prompt becomes the sole
user-role message. -/
def generateToCreateMessage (req : GenerateRequest) (defaultMaxTokens : Int) : CreateMessageParams :=
  let messages := [{ role := "user", content := MCPContent.textContent req.prompt : SamplingMessage }]
  let maxTokens :=
    match req.options with
    | some o => if o.numPredict > 0 then o.numPredict else defaultMaxTokens
    | none => defaultMaxTokens
  { messages := messages
    maxTokens := maxTokens
    systemPrompt := if req.system ≠ "" then some req.system else none
    modelPreferences :=
      if req.model ≠ "" then some { hints := [{ name := req.model }] } else none
    temperature :=
      match req.options with
      | some o => o.temperature
      | none => none }

/-- `mcpStopReason` (`translate.go`): translate an MCP stop reason to an
Ollama done_reason; the default branch of the Go `switch` returns `"stop"`. -/
def mcpStopReason (stopReason : String) : String :=
  if stopReason = "endTurn" then "stop"
  else if stopReason = "maxTokens" then "length"
  else "stop"

/-- `extractTextContent` (`translate.go`): pull the text out of an MCP
content value; every non-text variant and a nil value fall through to `""`. -/
def extractTextContent : Option MCPContent → String
  | some (MCPContent.textContent t) => t
  | _ => ""

/-- The result of an MCP `CreateMessage` call (`mcp.CreateMessageResult`),
restricted to the fields the handlers read. -/
structure CreateMessageResult where
  content : Option MCPContent
  stopReason : String
deriving DecidableEq, Repr

/-- An attached endpoint/session: its session id plus an opaque tag so that
distinct endpoints registered under the same id can be told apart. -/
structure Endpoint where
  id : String
  tag : Nat
deriving DecidableEq, Repr

/-- `sessionHolder` state (`main.go`): the id-to-session mapping plus the
`latest` pointer. The Go map is modelled as an association list with unique
keys; a Go map's iteration order is unspecified, and the list order here
fixes one concrete order for the arbitrary-survivor pick in `remove`. -/
structure Holder where
  sessions : List (String × Endpoint)
  latest : Option Endpoint
deriving DecidableEq, Repr

/-- `newSessionHolder` (`main.go`): empty mapping, nil `latest`. -/
def newSessionHolder : Holder :=
  { sessions := [], latest := none }

/-- `sessionHolder.set` (`main.go`): store the session under its id
(overwriting any prior entry with that key) and make it `latest`. -/
def Holder.set (h : Holder) (e : Endpoint) : Holder :=
  { sessions := (e.id, e) :: h.sessions.filter (fun p => p.1 != e.id)
    latest := some e }

/-- `sessionHolder.remove` (`main.go`): delete the entry with that id; if
`latest` carried that id, reassign it to some remaining entry (the Go code
takes the first map-iteration element; here, the head of the residual
list) or nil if none remain. -/
def Holder.remove (h : Holder) (sessionID : String) : Holder :=
  let sessions := h.sessions.filter (fun p => p.1 != sessionID)
  let latest :=
    match h.latest with
    | some l => if l.id = sessionID then sessions.head?.map Prod.snd else some l
    | none => none
  { sessions := sessions, latest := latest }

/-- `sessionHolder.get` (`main.go`): return `latest` without modifying
anything. -/
def Holder.get (h : Holder) : Option Endpoint :=
  h.latest

/-- One registry operation, for reachability statements. -/
inductive RegistryOp
  | set (e : Endpoint)
  | remove (id : String)
  | get
deriving DecidableEq, Repr

/-- Apply one registry operation (`get` reads without modifying state). -/
def applyOp (h : Holder) : RegistryOp → Holder
  | RegistryOp.set e => h.set e
  | RegistryOp.remove id => h.remove id
  | RegistryOp.get => h

/-- Run a sequence of registry operations from the empty holder. -/
def runOps (ops : List RegistryOp) : Holder :=
  ops.foldl applyOp newSessionHolder

/-- The outbound sampling call as a handler sees it: `session.CreateMessage`
either returns a result or an error (the error's text). -/
def Sampler : Type :=
  CreateMessageParams → Except String CreateMessageResult

/-- One `/api/chat` response object (`ChatResponse` in `types.go`),
restricted to the fields the handlers assign; `done_reason` and
`eval_count` keep their Go zero values (`none` / `0`) when unassigned. -/
structure ChatResponse where
  model : String
  message : OllamaMessage
  done : Bool
  doneReason : Option String
  evalCount : Nat
deriving DecidableEq, Repr

/-- One `/api/generate` response object (`GenerateResponse` in `types.go`),
restricted likewise. -/
structure GenerateResponse where
  model : String
  response : String
  done : Bool
  doneReason : Option String
  evalCount : Nat
deriving DecidableEq, Repr

/-- `req.Stream == nil || *req.Stream`: streaming unless the caller sent an
explicit `false`. -/
def streamingMode : Option Bool → Bool
  | none => true
  | some b => b

/-- The response-emission tail of `handleChat` (`main.go`): the sequence of
JSON objects written, in order. Streaming writes two NDJSON frames;
non-streaming writes one object. `len(text)` in Go counts UTF-8 bytes. -/
def emitChat (model text stopReason : String) (streaming : Bool) : List ChatResponse :=
  if streaming then
    [{ model := model, message := { role := "assistant", content := text },
       done := false, doneReason := none, evalCount := 0 },
     { model := model, message := { role := "assistant", content := "" },
       done := true, doneReason := some stopReason, evalCount := text.utf8ByteSize }]
  else
    [{ model := model, message := { role := "assistant", content := text },
       done := true, doneReason := some stopReason, evalCount := text.utf8ByteSize }]

/-- The response-emission tail of `handleGenerate` (`main.go`). -/
def emitGenerate (model text stopReason : String) (streaming : Bool) : List GenerateResponse :=
  if streaming then
    [{ model := model, response := text,
       done := false, doneReason := none, evalCount := 0 },
     { model := model, response := "",
       done := true, doneReason := some stopReason, evalCount := text.utf8ByteSize }]
  else
    [{ model := model, response := text,
       done := true, doneReason := some stopReason, evalCount := text.utf8ByteSize }]

/-- An HTTP response outcome: either an error status with the encoded
`{"error": msg}` body's message, or a 200 with a sequence of JSON objects. -/
inductive HttpOutcome (A : Type)
  | errorResp (status : Nat) (body : String)
  | ok (frames : List A)
deriving DecidableEq, Repr

/-- The preload `/api/chat` response (`main.go`): empty content, `done`
true, no done_reason, model echoed without defaulting. -/
def preloadChatResponse (model : String) : ChatResponse :=
  { model := model, message := { role := "assistant", content := "" },
    done := true, doneReason := none, evalCount := 0 }

/-- The preload `/api/generate` response (`main.go`). -/
def preloadGenerateResponse (model : String) : GenerateResponse :=
  { model := model, response := "", done := true, doneReason := none, evalCount := 0 }

/-- `handleChat` (`main.go`): decode, session check, translate, preload
short-circuit, outbound call, emit. The `Bool` component records whether
the outbound `CreateMessage` call was made. -/
def handleChat (parse : Except String ChatRequest) (session : Option Sampler)
    (defaultMaxTokens : Int) : HttpOutcome ChatResponse × Bool :=
  match parse with
  | Except.error e => (HttpOutcome.errorResp 400 ("invalid JSON: " ++ e), false)
  | Except.ok req =>
    match session with
    | none => (HttpOutcome.errorResp 503 "MCP host not connected", false)
    | some sample =>
      let params := chatToCreateMessage req defaultMaxTokens
      if params.messages = [] then
        (HttpOutcome.ok [preloadChatResponse req.model], false)
      else
        match sample params with
        | Except.error err =>
          (HttpOutcome.errorResp 502 ("sampling failed: " ++ err), true)
        | Except.ok result =>
          let text := extractTextContent result.content
          let stopReason := mcpStopReason result.stopReason
          let model := if req.model = "" then "default" else req.model
          (HttpOutcome.ok (emitChat model text stopReason (streamingMode req.stream)), true)

/-- `handleGenerate` (`main.go`): same structure; the preload condition is
`len(params.Messages) == 0 || req.Prompt == ""`. -/
def handleGenerate (parse : Except String GenerateRequest) (session : Option Sampler)
    (defaultMaxTokens : Int) : HttpOutcome GenerateResponse × Bool :=
  match parse with
  | Except.error e => (HttpOutcome.errorResp 400 ("invalid JSON: " ++ e), false)
  | Except.ok req =>
    match session with
    | none => (HttpOutcome.errorResp 503 "MCP host not connected", false)
    | some sample =>
      let params := generateToCreateMessage req defaultMaxTokens
      if params.messages = [] ∨ req.prompt = "" then
        (HttpOutcome.ok [preloadGenerateResponse req.model], false)
      else
        match sample params with
        | Except.error err =>
          (HttpOutcome.errorResp 502 ("sampling failed: " ++ err), true)
        | Except.ok result =>
          let text := extractTextContent result.content
          let stopReason := mcpStopReason result.stopReason
          let model := if req.model = "" then "default" else req.model
          (HttpOutcome.ok (emitGenerate model text stopReason (streamingMode req.stream)), true)

/-! ## Helper lemmas -/

/-- The single-pass message loop computes the role-based partition: system
contents on the left, translated non-system messages on the right. -/
lemma partitionChatMessages_eq (l : List OllamaMessage) :
    partitionChatMessages l =
      ((l.filter (fun m => m.role == "system")).map (fun m => m.content),
       (l.filter (fun m => m.role != "system")).map
         (fun m => { role := if m.role = "assistant" then "assistant" else "user",
                     content := MCPContent.textContent m.content })) := by
  induction l with
  | nil => rfl
  | cons m rest ih =>
    simp only [partitionChatMessages, ih, List.filter_cons, List.map_cons]
    by_cases h : m.role = "system" <;> simp [h]

/-- The outbound message list of a translated chat request, in closed form. -/
lemma chatToCreateMessage_messages (req : ChatRequest) (D : Int) :
    (chatToCreateMessage req D).messages =
      (req.messages.filter (fun m => m.role != "system")).map
        (fun m => { role := if m.role = "assistant" then "assistant" else "user",
                    content := MCPContent.textContent m.content }) := by
  unfold chatToCreateMessage
  rw [partitionChatMessages_eq]

/-! ## Claims -/

/-- **C1.** For every multi-turn chat request, the translator partitions
input messages by role: every message with role "system" is removed from
the message list and their contents, in original order, are newline-joined
into the single system-prompt field (the field is omitted when there are no
system messages); all remaining messages appear as outbound messages in
their original relative order, role "assistant" mapping to outbound role
"assistant" and every other role value (including unknown roles) mapping
to outbound role "user". -/
theorem chat_translation_partitions_by_role (req : ChatRequest) (D : Int) :
    (chatToCreateMessage req D).messages =
      (req.messages.filter (fun m => m.role != "system")).map
        (fun m => { role := if m.role = "assistant" then "assistant" else "user",
                    content := MCPContent.textContent m.content }) ∧
    (chatToCreateMessage req D).systemPrompt =
      (if req.messages.filter (fun m => m.role == "system") = [] then none
       else some (String.intercalate "\n"
         ((req.messages.filter (fun m => m.role == "system")).map (fun m => m.content)))) := by
  refine ⟨chatToCreateMessage_messages req D, ?_⟩
  unfold chatToCreateMessage
  rw [partitionChatMessages_eq]
  by_cases h : req.messages.filter (fun m => m.role == "system") = [] <;>
    simp [h, List.length_pos, List.ne_nil_of_length_pos]

/-- **C7.** For every chat or generate request, the outbound
max-output-tokens equals the per-request num_predict override when that
override is present and strictly greater than 0, and equals the configured
default D otherwise; in particular an override of 0 or an absent override
does not replace the default. -/
theorem max_tokens_override_rule (creq : ChatRequest) (greq : GenerateRequest) (D : Int) :
    (∀ o, creq.options = some o → 0 < o.numPredict →
      (chatToCreateMessage creq D).maxTokens = o.numPredict) ∧
    (∀ o, creq.options = some o → o.numPredict ≤ 0 →
      (chatToCreateMessage creq D).maxTokens = D) ∧
    (creq.options = none → (chatToCreateMessage creq D).maxTokens = D) ∧
    (∀ o, greq.options = some o → 0 < o.numPredict →
      (generateToCreateMessage greq D).maxTokens = o.numPredict) ∧
    (∀ o, greq.options = some o → o.numPredict ≤ 0 →
      (generateToCreateMessage greq D).maxTokens = D) ∧
    (greq.options = none → (generateToCreateMessage greq D).maxTokens = D) := by
  refine ⟨fun o ho hpos => ?_, fun o ho hle => ?_, fun ho => ?_,
          fun o ho hpos => ?_, fun o ho hle => ?_, fun ho => ?_⟩ <;>
    simp only [chatToCreateMessage, generateToCreateMessage, ho] <;>
    first
    | rfl
    | (rw [if_pos hpos])
    | (rw [if_neg (by omega)])

/-- Witness for C7: a num_predict of 2048 overrides the default 4096; a
num_predict of 0 and absent options leave the default in place. -/
theorem max_tokens_override_rule_witness :
    (chatToCreateMessage
      { model := "m", messages := [], stream := none,
        options := some { numPredict := 2048, temperature := none } } 4096).maxTokens = 2048 ∧
    (generateToCreateMessage
      { model := "m", prompt := "hi", system := "", stream := none,
        options := some { numPredict := 0, temperature := none } } 4096).maxTokens = 4096 := by
  constructor
  · exact (max_tokens_override_rule
      { model := "m", messages := [], stream := none,
        options := some { numPredict := 2048, temperature := none } }
      { model := "m", prompt := "hi", system := "", stream := none, options := none }
      4096).1 { numPredict := 2048, temperature := none } rfl (by decide)
  · exact (max_tokens_override_rule
      { model := "m", messages := [], stream := none, options := none }
      { model := "m", prompt := "hi", system := "", stream := none,
        options := some { numPredict := 0, temperature := none } }
      4096).2.2.2.2.1 { numPredict := 0, temperature := none } rfl (by decide)

/-- **C8.** For every chat or generate request, the outbound temperature is
set only if the caller supplied a temperature; when the caller supplied
none, the translated request carries no temperature (absence means the
downstream decides, not a temperature of zero). -/
theorem temperature_only_when_supplied (creq : ChatRequest) (greq : GenerateRequest) (D : Int) :
    (creq.options = none → (chatToCreateMessage creq D).temperature = none) ∧
    (∀ o, creq.options = some o → o.temperature = none →
      (chatToCreateMessage creq D).temperature = none) ∧
    (∀ o t, creq.options = some o → o.temperature = some t →
      (chatToCreateMessage creq D).temperature = some t) ∧
    (greq.options = none → (generateToCreateMessage greq D).temperature = none) ∧
    (∀ o, greq.options = some o → o.temperature = none →
      (generateToCreateMessage greq D).temperature = none) ∧
    (∀ o t, greq.options = some o → o.temperature = some t →
      (generateToCreateMessage greq D).temperature = some t) := by
  refine ⟨fun ho => ?_, fun o ho ht => ?_, fun o t ho ht => ?_,
          fun ho => ?_, fun o ho ht => ?_, fun o t ho ht => ?_⟩ <;>
    first
    | simp [chatToCreateMessage, generateToCreateMessage, ho, ht]
    | simp [chatToCreateMessage, generateToCreateMessage, ho]

/-- Witness for C8: a supplied temperature of 7/10 is carried through, and
absent options carry no temperature. -/
theorem temperature_only_when_supplied_witness :
    (chatToCreateMessage
      { model := "m", messages := [], stream := none,
        options := some { numPredict := 0, temperature := some (7 / 10 : Rat) } } 4096).temperature
      = some (7 / 10 : Rat) ∧
    (generateToCreateMessage
      { model := "m", prompt := "hi", system := "", stream := none,
        options := none } 4096).temperature = none := by
  constructor
  · exact (temperature_only_when_supplied
      { model := "m", messages := [], stream := none,
        options := some { numPredict := 0, temperature := some (7 / 10 : Rat) } }
      { model := "m", prompt := "hi", system := "", stream := none, options := none }
      4096).2.2.1 { numPredict := 0, temperature := some (7 / 10 : Rat) } (7 / 10 : Rat) rfl rfl
  · exact (temperature_only_when_supplied
      { model := "m", messages := [], stream := none, options := none }
      { model := "m", prompt := "hi", system := "", stream := none, options := none }
      4096).2.2.2.1 rfl

/-- **C4.** Result translation is total and never an error: for every
sampling result, if the content is of the text kind the extracted text
equals that content's text, and any other content kind or a null content
value yields the empty string; the stop-reason maps by the fixed table
endTurn to stop and maxTokens to length, and every other stop-reason value
(including unknown or empty) maps to stop. -/
theorem result_translation_total (content : Option MCPContent) (s : String) :
    (∀ t, content = some (MCPContent.textContent t) → extractTextContent content = t) ∧
    ((∀ t, content ≠ some (MCPContent.textContent t)) → extractTextContent content = "") ∧
    mcpStopReason "endTurn" = "stop" ∧
    mcpStopReason "maxTokens" = "length" ∧
    mcpStopReason "" = "stop" ∧
    (s ≠ "endTurn" → s ≠ "maxTokens" → mcpStopReason s = "stop") := by
  refine ⟨fun t ht => ?_, fun hother => ?_, rfl, rfl, rfl, fun h1 h2 => ?_⟩
  · rw [ht]; rfl
  · match content with
    | none => rfl
    | some (MCPContent.textContent t) => exact absurd rfl (hother t)
    | some (MCPContent.imageContent d m) => rfl
    | some (MCPContent.audioContent d m) => rfl
  · simp [mcpStopReason, h1, h2]

/-- Witness for C4: image content extracts to the empty string and an
unknown stop reason maps to "stop". -/
theorem result_translation_total_witness :
    extractTextContent (some (MCPContent.imageContent "base64" "image/png")) = "" ∧
    mcpStopReason "stopSequence" = "stop" := by
  constructor
  · exact (result_translation_total
      (some (MCPContent.imageContent "base64" "image/png")) "stopSequence").2.1
      (fun t h => by simp at h)
  · exact (result_translation_total
      (some (MCPContent.imageContent "base64" "image/png")) "stopSequence").2.2.2.2.2
      (by decide) (by decide)

/-- Counterexample for C2 as stated: the non-streaming emitter's
output-token count is the Go byte length of the text, not its length in
characters. For the one-character text "é" (two UTF-8 bytes) the emitted
eval_count sequence is [2] while the character-length sequence of the
emitted texts is [1], so the claimed equality fails. -/
theorem emitter_eval_count_counterexample :
    (emitChat "default" "é" "stop" false).map (fun f => f.evalCount) = [2] ∧
    (emitChat "default" "é" "stop" false).map (fun f => f.message.content.length) = [1] ∧
    ¬ ((emitChat "default" "é" "stop" false).map (fun f => f.evalCount)
        = (emitChat "default" "é" "stop" false).map (fun f => f.message.content.length)) := by
  refine ⟨by decide, by decide, by decide⟩

/-- **C2 (amended).** For every translated result and caller-selected mode,
the emitter in streaming mode (the default when the request omits the
stream flag) emits exactly two independently parseable newline-delimited
JSON objects — the first carrying the full text with done=false and no
done_reason, the second carrying empty text with done=true, the
done_reason and the output-token count — and in non-streaming mode emits
exactly one JSON object with the full text, done=true, the done_reason,
and an output-token count equal to the UTF-8 byte length (not the length
in characters) of the emitted text. -/
theorem emitter_frame_shape (model text stopReason : String) :
    streamingMode none = true ∧
    emitChat model text stopReason true =
      [{ model := model, message := { role := "assistant", content := text },
         done := false, doneReason := none, evalCount := 0 },
       { model := model, message := { role := "assistant", content := "" },
         done := true, doneReason := some stopReason, evalCount := text.utf8ByteSize }] ∧
    emitChat model text stopReason false =
      [{ model := model, message := { role := "assistant", content := text },
         done := true, doneReason := some stopReason, evalCount := text.utf8ByteSize }] ∧
    emitGenerate model text stopReason true =
      [{ model := model, response := text,
         done := false, doneReason := none, evalCount := 0 },
       { model := model, response := "",
         done := true, doneReason := some stopReason, evalCount := text.utf8ByteSize }] ∧
    emitGenerate model text stopReason false =
      [{ model := model, response := text,
         done := true, doneReason := some stopReason, evalCount := text.utf8ByteSize }] :=
  ⟨rfl, rfl, rfl, rfl, rfl⟩

/-- **C5.** For every request whose outbound message list is empty after
system-message extraction (the caller sent only system messages) or whose
prompt string is empty, the gateway short-circuits and returns a trivial
preload result with empty text and terminal flag true, and no call to the
remote endpoint's sampling operation is made (the call flag is false, for
every sampler). -/
theorem preload_short_circuit (req : ChatRequest) (greq : GenerateRequest)
    (sample gsample : Sampler) (D : Int)
    (hsys : ∀ m ∈ req.messages, m.role = "system") (hprompt : greq.prompt = "") :
    handleChat (Except.ok req) (some sample) D =
      (HttpOutcome.ok [{ model := req.model,
                         message := { role := "assistant", content := "" },
                         done := true, doneReason := none, evalCount := 0 }], false) ∧
    handleGenerate (Except.ok greq) (some gsample) D =
      (HttpOutcome.ok [{ model := greq.model, response := "",
                         done := true, doneReason := none, evalCount := 0 }], false) := by
  constructor
  · have hempty : (chatToCreateMessage req D).messages = [] := by
      rw [chatToCreateMessage_messages req D]
      rw [List.map_eq_nil_iff, List.filter_eq_nil_iff]
      intro m hm
      simp [hsys m hm]
    simp [handleChat, hempty, preloadChatResponse]
  · simp [handleGenerate, hprompt, preloadGenerateResponse]

/-- Witness for C5: a chat request carrying only a system message and a
generate request with an empty prompt both yield the preload response
without invoking the sampler. -/
theorem preload_short_circuit_witness :
    handleChat
      (Except.ok { model := "m",
                   messages := [{ role := "system", content := "You are helpful." }],
                   stream := none, options := none })
      (some (fun _ => Except.error "sampler must not be called")) 4096 =
      (HttpOutcome.ok [{ model := "m",
                         message := { role := "assistant", content := "" },
                         done := true, doneReason := none, evalCount := 0 }], false) ∧
    handleGenerate
      (Except.ok { model := "m", prompt := "", system := "", stream := none, options := none })
      (some (fun _ => Except.error "sampler must not be called")) 4096 =
      (HttpOutcome.ok [{ model := "m", response := "",
                         done := true, doneReason := none, evalCount := 0 }], false) :=
  preload_short_circuit
    { model := "m",
      messages := [{ role := "system", content := "You are helpful." }],
      stream := none, options := none }
    { model := "m", prompt := "", system := "", stream := none, options := none }
    (fun _ => Except.error "sampler must not be called")
    (fun _ => Except.error "sampler must not be called")
    4096
    (by intro m hm; simp at hm; rw [hm])
    rfl

/-- **C6.** Every error response falls into exactly one of three terminal
cases: a request body that fails to parse as the expected schema yields
HTTP 400 with a message including the parse failure detail; a dispatch
while current() is null yields HTTP 503 with a fixed message before any
outbound call is attempted (the call flag is false); an outbound sampling
call returning an error yields HTTP 502 with a message wrapping the
underlying error text. The last conjunct of each handler's group shows the
taxonomy is exhaustive: any error outcome is one of these three. -/
theorem error_response_taxonomy
    (parse : Except String ChatRequest) (gparse : Except String GenerateRequest)
    (session : Option Sampler) (D : Int) :
    (∀ e, parse = Except.error e →
      handleChat parse session D = (HttpOutcome.errorResp 400 ("invalid JSON: " ++ e), false)) ∧
    (∀ req, parse = Except.ok req → session = none →
      handleChat parse session D = (HttpOutcome.errorResp 503 "MCP host not connected", false)) ∧
    (∀ req sample err, parse = Except.ok req → session = some sample →
      ¬ (chatToCreateMessage req D).messages = [] →
      sample (chatToCreateMessage req D) = Except.error err →
      handleChat parse session D
        = (HttpOutcome.errorResp 502 ("sampling failed: " ++ err), true)) ∧
    (∀ st msg b, handleChat parse session D = (HttpOutcome.errorResp st msg, b) →
      (st = 400 ∧ b = false ∧ ∃ e, parse = Except.error e ∧ msg = "invalid JSON: " ++ e) ∨
      (st = 503 ∧ b = false ∧ msg = "MCP host not connected") ∨
      (st = 502 ∧ b = true ∧ ∃ err, msg = "sampling failed: " ++ err)) ∧
    (∀ e, gparse = Except.error e →
      handleGenerate gparse session D
        = (HttpOutcome.errorResp 400 ("invalid JSON: " ++ e), false)) ∧
    (∀ req, gparse = Except.ok req → session = none →
      handleGenerate gparse session D
        = (HttpOutcome.errorResp 503 "MCP host not connected", false)) ∧
    (∀ req sample err, gparse = Except.ok req → session = some sample →
      ¬ ((generateToCreateMessage req D).messages = [] ∨ req.prompt = "") →
      sample (generateToCreateMessage req D) = Except.error err →
      handleGenerate gparse session D
        = (HttpOutcome.errorResp 502 ("sampling failed: " ++ err), true)) ∧
    (∀ st msg b, handleGenerate gparse session D = (HttpOutcome.errorResp st msg, b) →
      (st = 400 ∧ b = false ∧ ∃ e, gparse = Except.error e ∧ msg = "invalid JSON: " ++ e) ∨
      (st = 503 ∧ b = false ∧ msg = "MCP host not connected") ∨
      (st = 502 ∧ b = true ∧ ∃ err, msg = "sampling failed: " ++ err)) := by
  refine ⟨?_, ?_, ?_, ?_, ?_, ?_, ?_, ?_⟩
  · intro e he; subst he; rfl
  · intro req hreq hs; subst hreq; subst hs; rfl
  · intro req sample err hreq hs hne herr
    subst hreq; subst hs
    simp [handleChat, if_neg hne, herr]
  · intro st msg b h
    cases parse with
    | error e =>
      simp only [handleChat, Prod.mk.injEq, HttpOutcome.errorResp.injEq] at h
      exact Or.inl ⟨h.1.1.symm, h.2.symm, e, rfl, h.1.2.symm⟩
    | ok req =>
      cases session with
      | none =>
        simp only [handleChat, Prod.mk.injEq, HttpOutcome.errorResp.injEq] at h
        exact Or.inr (Or.inl ⟨h.1.1.symm, h.2.symm, h.1.2.symm⟩)
      | some sample =>
        by_cases hne : (chatToCreateMessage req D).messages = []
        · simp [handleChat, hne] at h
        · cases hs : sample (chatToCreateMessage req D) with
          | error err =>
            simp only [handleChat, if_neg hne, hs, Prod.mk.injEq,
              HttpOutcome.errorResp.injEq] at h
            exact Or.inr (Or.inr ⟨h.1.1.symm, h.2.symm, err, h.1.2.symm⟩)
          | ok result =>
            simp [handleChat, hne, hs] at h
  · intro e he; subst he; rfl
  · intro req hreq hs; subst hreq; subst hs; rfl
  · intro req sample err hreq hs hne herr
    subst hreq; subst hs
    simp [handleGenerate, if_neg hne, herr]
  · intro st msg b h
    cases gparse with
    | error e =>
      simp only [handleGenerate, Prod.mk.injEq, HttpOutcome.errorResp.injEq] at h
      exact Or.inl ⟨h.1.1.symm, h.2.symm, e, rfl, h.1.2.symm⟩
    | ok req =>
      cases session with
      | none =>
        simp only [handleGenerate, Prod.mk.injEq, HttpOutcome.errorResp.injEq] at h
        exact Or.inr (Or.inl ⟨h.1.1.symm, h.2.symm, h.1.2.symm⟩)
      | some sample =>
        by_cases hne : (generateToCreateMessage req D).messages = [] ∨ req.prompt = ""
        · simp [handleGenerate, hne] at h
        · cases hs : sample (generateToCreateMessage req D) with
          | error err =>
            simp only [handleGenerate, if_neg hne, hs, Prod.mk.injEq,
              HttpOutcome.errorResp.injEq] at h
            exact Or.inr (Or.inr ⟨h.1.1.symm, h.2.symm, err, h.1.2.symm⟩)
          | ok result =>
            simp [handleGenerate, hne, hs] at h

/-- Witness for C6: a malformed body yields 400 with the parse detail, a
missing session yields 503, and a failing sampler yields 502 wrapping the
underlying error, on concrete requests. -/
theorem error_response_taxonomy_witness :
    handleChat (Except.error "unexpected EOF") none 4096
      = (HttpOutcome.errorResp 400 ("invalid JSON: " ++ "unexpected EOF"), false) ∧
    handleGenerate
      (Except.ok { model := "m", prompt := "hi", system := "", stream := none, options := none })
      none 4096
      = (HttpOutcome.errorResp 503 "MCP host not connected", false) ∧
    handleChat
      (Except.ok { model := "m",
                   messages := [{ role := "user", content := "hi" }],
                   stream := none, options := none })
      (some (fun _ => Except.error "mcp failure")) 4096
      = (HttpOutcome.errorResp 502 ("sampling failed: " ++ "mcp failure"), true) := by
  refine ⟨?_, ?_, ?_⟩
  · exact (error_response_taxonomy (Except.error "unexpected EOF")
      (Except.error "unexpected EOF") none 4096).1 "unexpected EOF" rfl
  · exact (error_response_taxonomy (Except.error "x")
      (Except.ok { model := "m", prompt := "hi", system := "", stream := none, options := none })
      none 4096).2.2.2.2.2.1
      { model := "m", prompt := "hi", system := "", stream := none, options := none } rfl rfl
  · exact (error_response_taxonomy
      (Except.ok { model := "m",
                   messages := [{ role := "user", content := "hi" }],
                   stream := none, options := none })
      (Except.error "x")
      (some (fun _ => Except.error "mcp failure")) 4096).2.2.1
      { model := "m", messages := [{ role := "user", content := "hi" }],
        stream := none, options := none }
      (fun _ => Except.error "mcp failure") "mcp failure" rfl rfl (by decide) rfl

/-- **C10.** The no-endpoint check is evaluated before the preload
short-circuit: for every chat request whose translated message list is
empty and every generate request with an empty prompt, if no endpoint is
attached (current() is null) the response is the HTTP 503 error, not the
trivial preload response. -/
theorem no_endpoint_precedes_preload (req : ChatRequest) (greq : GenerateRequest) (D : Int)
    (_hempty : (chatToCreateMessage req D).messages = []) (_hprompt : greq.prompt = "") :
    handleChat (Except.ok req) none D
      = (HttpOutcome.errorResp 503 "MCP host not connected", false) ∧
    handleChat (Except.ok req) none D
      ≠ (HttpOutcome.ok [preloadChatResponse req.model], false) ∧
    handleGenerate (Except.ok greq) none D
      = (HttpOutcome.errorResp 503 "MCP host not connected", false) ∧
    handleGenerate (Except.ok greq) none D
      ≠ (HttpOutcome.ok [preloadGenerateResponse greq.model], false) := by
  refine ⟨rfl, ?_, rfl, ?_⟩ <;> simp [handleChat, handleGenerate]

/-- Witness for C10: a system-only chat request and an empty-prompt
generate request both get the 503 error when no session is attached. -/
theorem no_endpoint_precedes_preload_witness :
    handleChat
      (Except.ok { model := "m",
                   messages := [{ role := "system", content := "sys" }],
                   stream := none, options := none })
      none 4096
      = (HttpOutcome.errorResp 503 "MCP host not connected", false) ∧
    handleGenerate
      (Except.ok { model := "m", prompt := "", system := "", stream := none, options := none })
      none 4096
      = (HttpOutcome.errorResp 503 "MCP host not connected", false) := by
  have h := no_endpoint_precedes_preload
    { model := "m", messages := [{ role := "system", content := "sys" }],
      stream := none, options := none }
    { model := "m", prompt := "", system := "", stream := none, options := none }
    4096 (by decide) rfl
  exact ⟨h.1, h.2.2.1⟩

/-- **C3.** For the registry (sessionHolder): after attach(A) then
attach(B), current() returns B; after a subsequent detach(B), current()
returns A; after a subsequent detach(A), current() returns null; detach of
an identifier not present in the mapping is a no-op that leaves the whole
registry state unchanged; and attach under an already-registered
identifier overwrites the prior entry and still makes the newly attached
endpoint current. -/
theorem session_holder_contract (A B C : Endpoint) (hne : A.id ≠ B.id)
    (st : Holder)
    (hcur : ∀ e, st.latest = some e → (e.id, e) ∈ st.sessions)
    (absentId : String) (habs : ∀ p ∈ st.sessions, p.1 ≠ absentId) :
    ((newSessionHolder.set A).set B).get = some B ∧
    (((newSessionHolder.set A).set B).remove B.id).get = some A ∧
    ((((newSessionHolder.set A).set B).remove B.id).remove A.id).get = none ∧
    st.remove absentId = st ∧
    (st.set C).get = some C ∧
    (st.set C).sessions.filter (fun p => p.1 == C.id) = [(C.id, C)] := by
  have hAB : ((A.id : String) != B.id) = true := by simp [hne]
  refine ⟨rfl, ?_, ?_, ?_, rfl, ?_⟩
  · simp [Holder.set, Holder.remove, Holder.get, newSessionHolder,
      List.filter_cons, hAB, hne]
  · simp [Holder.set, Holder.remove, Holder.get, newSessionHolder,
      List.filter_cons, hAB, hne]
  · obtain ⟨sessions, latest⟩ := st
    have hsess : sessions.filter (fun p => p.1 != absentId) = sessions :=
      List.filter_eq_self.mpr (fun p hp => by simp [habs p hp])
    simp only [Holder.remove, hsess, Holder.mk.injEq, true_and]
    cases hl : latest with
    | none => rfl
    | some l =>
      have hlid : l.id ≠ absentId := habs (l.id, l) (hcur l hl)
      simp [hlid]
  · have hrest : ((st.sessions.filter (fun p => p.1 != C.id)).filter
        (fun p => p.1 == C.id)) = [] := by
      rw [List.filter_eq_nil_iff]
      intro p hp
      have h2 := (List.mem_filter.mp hp).2
      simp only [bne_iff_ne, ne_eq] at h2
      simp [h2]
    simp [Holder.set, List.filter_cons, hrest]

/-- Witness for C3: concrete endpoints s1, s2 for the attach/detach
scenario, and a concrete holder for the absent-id no-op. -/
theorem session_holder_contract_witness :
    ((newSessionHolder.set { id := "s1", tag := 0 }).set { id := "s2", tag := 0 }).get
      = some { id := "s2", tag := 0 } ∧
    (((newSessionHolder.set { id := "s1", tag := 0 }).set
        { id := "s2", tag := 0 }).remove "s2").get = some { id := "s1", tag := 0 } ∧
    Holder.remove { sessions := [("a", { id := "a", tag := 0 })], latest := none } "zzz"
      = { sessions := [("a", { id := "a", tag := 0 })], latest := none } := by
  have h := session_holder_contract { id := "s1", tag := 0 } { id := "s2", tag := 0 }
    { id := "a", tag := 1 } (by decide)
    { sessions := [("a", { id := "a", tag := 0 })], latest := none }
    (fun e he => nomatch he) "zzz" (by decide)
  exact ⟨h.1, h.2.1, h.2.2.2.1⟩

/-- The combined registry invariant: keys coincide with stored session ids,
and the `latest` pointer, when non-null, is an entry of the mapping. -/
def RegistryInv (h : Holder) : Prop :=
  (∀ p ∈ h.sessions, p.1 = p.2.id) ∧ (∀ e, h.latest = some e → (e.id, e) ∈ h.sessions)

/-- Every registry operation preserves the combined invariant. -/
lemma registryInv_applyOp (h : Holder) (op : RegistryOp) (hi : RegistryInv h) :
    RegistryInv (applyOp h op) := by
  obtain ⟨hkeys, hcur⟩ := hi
  cases op with
  | get => exact ⟨hkeys, hcur⟩
  | set e =>
    refine ⟨?_, ?_⟩
    · intro p hp
      rcases List.mem_cons.mp hp with h1 | h1
      · rw [h1]
      · exact hkeys p (List.mem_filter.mp h1).1
    · intro e' he'
      simp only [applyOp, Holder.set] at he' ⊢
      cases he'
      exact List.mem_cons_self _ _
  | remove id =>
    obtain ⟨sessions, latest⟩ := h
    refine ⟨?_, ?_⟩
    · intro p hp
      exact hkeys p (List.mem_filter.mp hp).1
    · intro e' he'
      cases latest with
      | none => exact absurd he' (by simp [applyOp, Holder.remove])
      | some l =>
        simp only [applyOp, Holder.remove] at he' ⊢
        by_cases hid : l.id = id
        · rw [if_pos hid] at he'
          cases hh : (sessions.filter (fun p => p.1 != id)).head? with
          | none => rw [hh] at he'; exact absurd he' (by simp)
          | some p =>
            rw [hh] at he'
            simp only [Option.map_some', Option.some.injEq] at he'
            have hpmem : p ∈ sessions.filter (fun p => p.1 != id) :=
              List.mem_of_mem_head? (Option.mem_def.mpr hh)
            have hk := hkeys p (List.mem_filter.mp hpmem).1
            rw [← he', ← hk, Prod.mk.eta]
            exact hpmem
        · rw [if_neg hid] at he'
          cases he'
          exact List.mem_filter.mpr ⟨hcur e' rfl, by simp [hid]⟩

/-- **C9.** Registry invariant: in every state reachable by any sequence of
attach, detach and current operations starting from the empty registry,
whenever the current pointer is non-null it refers to an endpoint present
in the identifier-to-endpoint mapping. -/
theorem registry_current_in_mapping (ops : List RegistryOp) (e : Endpoint)
    (h : (runOps ops).latest = some e) :
    (e.id, e) ∈ (runOps ops).sessions := by
  have hinv : RegistryInv (runOps ops) := by
    have hstep : ∀ (l : List RegistryOp) (st : Holder),
        RegistryInv st → RegistryInv (l.foldl applyOp st) := by
      intro l
      induction l with
      | nil => intro st hst; exact hst
      | cons op rest ih => intro st hst; exact ih _ (registryInv_applyOp st op hst)
    exact hstep ops newSessionHolder
      ⟨fun p hp => absurd hp (by simp [newSessionHolder]),
       fun e' he' => absurd he' (by simp [newSessionHolder])⟩
  exact hinv.2 e h

/-- Witness for C9: after attach s1, attach s2, detach "s2", the current
pointer is s1 and indeed present in the mapping. -/
theorem registry_current_in_mapping_witness :
    (({ id := "s1", tag := 0 } : Endpoint).id, ({ id := "s1", tag := 0 } : Endpoint))
      ∈ (runOps [RegistryOp.set { id := "s1", tag := 0 },
                 RegistryOp.set { id := "s2", tag := 0 },
                 RegistryOp.remove "s2"]).sessions :=
  registry_current_in_mapping
    [RegistryOp.set { id := "s1", tag := 0 },
     RegistryOp.set { id := "s2", tag := 0 },
     RegistryOp.remove "s2"]
    { id := "s1", tag := 0 } (by decide)

end Samplellama
